import Mathlib

/-!
Shallow embedding of the Highcharts accessibility zoom component
(`src/js/modules/accessibility/components/ZoomComponent.js`) together with
proofs about its behaviour.

Numbers are modelled by `ℚ` (the source computes with JavaScript numbers;
the algorithms themselves are exact arithmetic on the axis extremes).
Side effects (calls to `setExtremes`, `setState`, `mapZoom`,
`setFocusToElement`, proxy-element creation and removal) are modelled by
returning explicit effect records or effect traces.
-/

namespace Highcharts

/-- The record returned by `axis.getExtremes()`: the current visible range
`[min, max]` and the absolute data bounds `[dataMin, dataMax]`. -/
structure Extremes where
  min : ℚ
  max : ℚ
  dataMin : ℚ
  dataMax : ℚ
deriving DecidableEq, Repr

/-- The granularity default of `H.Axis.prototype.panStep`:
`var gran = granularity || 3`.  An omitted argument (`none`) and the falsy
number `0` both fall back to `3`; any other number is used as given. -/
def panGran (granularity : Option ℚ) : ℚ :=
  match granularity with
  | none => 3
  | some g => if g = 0 then 3 else g

/-- `H.Axis.prototype.panStep (direction, granularity)`.  Reads the current
extremes, shifts the window by `(max - min) / gran * direction`, clamps at
`dataMin` when panning down past it and at `dataMax` when panning up past
it, and returns the pair `(newMin, newMax)` that the source passes to
`this.setExtremes(newMin, newMax)`. -/
def panStep (e : Extremes) (direction : ℚ) (granularity : Option ℚ) : ℚ × ℚ :=
  let gran := panGran granularity
  let step := (e.max - e.min) / gran * direction
  let newMax := e.max + step
  let newMin := e.min + step
  let size := newMax - newMin
  if direction < 0 ∧ newMin < e.dataMin then
    (e.dataMin, e.dataMin + size)
  else if direction > 0 ∧ newMax > e.dataMax then
    (e.dataMax - size, e.dataMax)
  else
    (newMin, newMax)

/-- The signed step `panStep` shifts both extremes by:
`step = (extremes.max - extremes.min) / gran * direction`. -/
def panStepValue (e : Extremes) (direction : ℚ) (granularity : Option ℚ) : ℚ :=
  (e.max - e.min) / panGran granularity * direction

/-- Whether one of the two clamping branches of `panStep` fires on the
given input. -/
def panStepClamped (e : Extremes) (direction : ℚ) (granularity : Option ℚ) : Bool :=
  let step := panStepValue e direction granularity
  decide (direction < 0 ∧ e.min + step < e.dataMin) ||
  decide (direction > 0 ∧ e.max + step > e.dataMax)

theorem panStep_eval (e : Extremes) (d : ℚ) (g : Option ℚ) :
    panStep e d g =
      if d < 0 ∧ e.min + panStepValue e d g < e.dataMin then
        (e.dataMin, e.dataMin + (e.max - e.min))
      else if d > 0 ∧ e.max + panStepValue e d g > e.dataMax then
        (e.dataMax - (e.max - e.min), e.dataMax)
      else
        (e.min + panStepValue e d g, e.max + panStepValue e d g) := by
  simp only [panStep, panStepValue]
  split_ifs <;> simp only [Prod.mk.injEq] <;> constructor <;> first | rfl | ring_nf

theorem panStep_fst (e : Extremes) (d : ℚ) (g : Option ℚ) :
    (panStep e d g).1 =
      if d < 0 ∧ e.min + panStepValue e d g < e.dataMin then e.dataMin
      else if d > 0 ∧ e.max + panStepValue e d g > e.dataMax then
        e.dataMax - (e.max - e.min)
      else e.min + panStepValue e d g := by
  rw [panStep_eval]
  split_ifs <;> rfl

theorem panStep_snd (e : Extremes) (d : ℚ) (g : Option ℚ) :
    (panStep e d g).2 =
      if d < 0 ∧ e.min + panStepValue e d g < e.dataMin then
        e.dataMin + (e.max - e.min)
      else if d > 0 ∧ e.max + panStepValue e d g > e.dataMax then e.dataMax
      else e.max + panStepValue e d g := by
  rw [panStep_eval]
  split_ifs <;> rfl

theorem panStep_size_eq (e : Extremes) (d : ℚ) (g : Option ℚ) :
    (panStep e d g).2 - (panStep e d g).1 = e.max - e.min := by
  rw [panStep_fst, panStep_snd]
  split_ifs <;> first | rfl | ring_nf

/-- C1: for every axis whose extremes satisfy
`dataMin ≤ min ≤ max ≤ dataMax`, every direction in `{-1, +1}` and every
positive integer granularity, the extremes `panStep` passes to
`setExtremes` satisfy `dataMin ≤ newMin ≤ newMax ≤ dataMax`, and
`newMax - newMin` equals the pre-pan window size `max - min` whenever no
clamping occurred. -/
theorem panStep_preserves_data_bounds (e : Extremes) (d : ℚ) (g : ℕ)
    (hd : d = -1 ∨ d = 1) (hg : 0 < g)
    (hmin : e.dataMin ≤ e.min) (hmm : e.min ≤ e.max) (hmax : e.max ≤ e.dataMax) :
    e.dataMin ≤ (panStep e d (some (g : ℚ))).1 ∧
    (panStep e d (some (g : ℚ))).1 ≤ (panStep e d (some (g : ℚ))).2 ∧
    (panStep e d (some (g : ℚ))).2 ≤ e.dataMax ∧
    (panStepClamped e d (some (g : ℚ)) = false →
      (panStep e d (some (g : ℚ))).2 - (panStep e d (some (g : ℚ))).1 =
        e.max - e.min) := by
  have hgq : (0 : ℚ) < (g : ℚ) := by exact_mod_cast hg
  have hgr : panGran (some (g : ℚ)) = (g : ℚ) := by
    simp [panGran, ne_of_gt hgq]
  have hsv : panStepValue e d (some (g : ℚ)) = (e.max - e.min) / (g : ℚ) * d := by
    rw [panStepValue, hgr]
  have ht : 0 ≤ (e.max - e.min) / (g : ℚ) := div_nonneg (by linarith) hgq.le
  have hsize := panStep_size_eq e d (some (g : ℚ))
  refine ⟨?_, by linarith, ?_, fun _ => hsize⟩
  · rw [panStep_fst]
    rcases hd with rfl | rfl
    · split_ifs with h₁ h₂
      · linarith
      · exact absurd h₂.1 (by norm_num)
      · push_neg at h₁
        have := h₁ (by norm_num)
        linarith
    · split_ifs with h₁ h₂
      · exact absurd h₁.1 (by norm_num)
      · linarith
      · have hs : 0 ≤ panStepValue e 1 (some (g : ℚ)) := by
          rw [hsv]; linarith
        linarith
  · rw [panStep_snd]
    rcases hd with rfl | rfl
    · split_ifs with h₁ h₂
      · linarith
      · exact absurd h₂.1 (by norm_num)
      · have hs : panStepValue e (-1) (some (g : ℚ)) ≤ 0 := by
          rw [hsv]; linarith
        linarith
    · split_ifs with h₁ h₂
      · exact absurd h₁.1 (by norm_num)
      · linarith
      · push_neg at h₂
        have := h₂ (by norm_num)
        linarith

/-- Witness for C1: the spec's own boundary example, the axis
`{min := 0, max := 10, dataMin := 0, dataMax := 30}` panned with
direction `+1` and granularity `3`: no clamping, window size `10`
preserved, bounds respected. -/
theorem panStep_preserves_data_bounds_witness :
    (0 : ℚ) ≤ (panStep ⟨0, 10, 0, 30⟩ 1 (some ((3 : ℕ) : ℚ))).1 ∧
    (panStep ⟨0, 10, 0, 30⟩ 1 (some ((3 : ℕ) : ℚ))).1 ≤
      (panStep ⟨0, 10, 0, 30⟩ 1 (some ((3 : ℕ) : ℚ))).2 ∧
    (panStep ⟨0, 10, 0, 30⟩ 1 (some ((3 : ℕ) : ℚ))).2 ≤ 30 ∧
    (panStepClamped ⟨0, 10, 0, 30⟩ 1 (some ((3 : ℕ) : ℚ)) = false →
      (panStep ⟨0, 10, 0, 30⟩ 1 (some ((3 : ℕ) : ℚ))).2 -
        (panStep ⟨0, 10, 0, 30⟩ 1 (some ((3 : ℕ) : ℚ))).1 = 10 - 0) :=
  panStep_preserves_data_bounds ⟨0, 10, 0, 30⟩ 1 3 (Or.inr rfl) (by norm_num)
    (by norm_num) (by norm_num) (by norm_num)

/-- C2: `panStep` always preserves the window size — the extremes it sets
satisfy `newMax - newMin = max - min` in the clamped branches as well as
the unclamped one, for every axis, direction and granularity. -/
theorem panStep_preserves_window_size (e : Extremes) (d : ℚ) (g : Option ℚ) :
    (panStep e d g).2 - (panStep e d g).1 = e.max - e.min :=
  panStep_size_eq e d g

/-- C6 counterexample: on the inverted axis
`{min := 10, max := 0, dataMin := 0, dataMax := 10}` with direction `+1`
and granularity `3`, `panStep` is not a no-op (it sets extremes different
from the ones it read) and the resulting window size is negative. -/
theorem panStep_inverted_not_noop :
    panStep ⟨10, 0, 0, 10⟩ 1 (some 3) ≠ ((10 : ℚ), (0 : ℚ)) ∧
    (panStep ⟨10, 0, 0, 10⟩ 1 (some 3)).2 -
      (panStep ⟨10, 0, 0, 10⟩ 1 (some 3)).1 < 0 := by
  have h : panStep ⟨10, 0, 0, 10⟩ 1 (some 3) = ((20 : ℚ) / 3, -(10 : ℚ) / 3) := by
    rw [panStep_eval]
    norm_num [panStepValue, panGran]
  rw [h]
  constructor
  · intro hc
    rw [Prod.mk.injEq] at hc
    norm_num at hc
  · norm_num

/-- C6 amended: on an inverted axis (`min > max`) `panStep` still
preserves the window size exactly (`newMax - newMin = max - min`), but
that size is negative and the operation is not clamped to a no-op — it
can set changed, still-inverted extremes. -/
theorem panStep_inverted_preserves_negative_size (e : Extremes) (d : ℚ)
    (g : Option ℚ) (hinv : e.max < e.min) :
    (panStep e d g).2 - (panStep e d g).1 = e.max - e.min ∧
    (panStep e d g).2 - (panStep e d g).1 < 0 := by
  have h := panStep_size_eq e d g
  exact ⟨h, by linarith⟩

/-- Witness for the amended C6, at the concrete inverted axis
`{min := 10, max := 0, dataMin := 0, dataMax := 10}`. -/
theorem panStep_inverted_preserves_negative_size_witness :
    (panStep ⟨10, 0, 0, 10⟩ 1 (some 3)).2 -
      (panStep ⟨10, 0, 0, 10⟩ 1 (some 3)).1 = (0 : ℚ) - 10 ∧
    (panStep ⟨10, 0, 0, 10⟩ 1 (some 3)).2 -
      (panStep ⟨10, 0, 0, 10⟩ 1 (some 3)).1 < 0 :=
  panStep_inverted_preserves_negative_size ⟨10, 0, 0, 10⟩ 1 (some 3)
    (by norm_num)

/-- C8: on a degenerate axis (`max = min`, within the data bounds) the
step is zero and `panStep` is a no-op: the extremes it sets equal the
extremes it read, for every direction and granularity. -/
theorem panStep_degenerate_noop (e : Extremes) (d : ℚ) (g : Option ℚ)
    (hdeg : e.min = e.max) (h1 : e.dataMin ≤ e.min) (h2 : e.max ≤ e.dataMax) :
    panStepValue e d g = 0 ∧ panStep e d g = (e.min, e.max) := by
  have hs : panStepValue e d g = 0 := by
    simp [panStepValue, hdeg]
  refine ⟨hs, ?_⟩
  rw [panStep_eval, hs]
  have c1 : ¬(d < 0 ∧ e.min + 0 < e.dataMin) := by
    rintro ⟨-, h⟩
    rw [add_zero] at h
    linarith
  have c2 : ¬(d > 0 ∧ e.max + 0 > e.dataMax) := by
    rintro ⟨-, h⟩
    rw [add_zero] at h
    linarith
  rw [if_neg c1, if_neg c2, add_zero, add_zero]

/-- Witness for C8: the degenerate axis
`{min := 5, max := 5, dataMin := 0, dataMax := 10}` panned with direction
`-1` and the granularity argument omitted: zero step, extremes unchanged. -/
theorem panStep_degenerate_noop_witness :
    panStepValue ⟨5, 5, 0, 10⟩ (-1) none = 0 ∧
    panStep ⟨5, 5, 0, 10⟩ (-1) none = ((5 : ℚ), (5 : ℚ)) :=
  panStep_degenerate_noop ⟨5, 5, 0, 10⟩ (-1) none rfl (by norm_num)
    (by norm_num)

/-- C10: a falsy granularity argument — `0`, or the argument omitted —
is replaced by the default `3` before the division, so `panStep` yields
exactly the extremes of a call with granularity `3`. -/
theorem panStep_granularity_defaults (e : Extremes) (d : ℚ) :
    panStep e d (some 0) = panStep e d (some 3) ∧
    panStep e d none = panStep e d (some 3) := by
  constructor <;> rfl

/-- The parts of the chart object the zoom component reads.  The `Bool`
fields model the truthiness of the corresponding chart property
(`chart.mapZoom`, `chart.resetZoomButton`, `chart.drillUpButton`);
`mapNavButtons` is `none` when `chart.mapNavButtons` is undefined. -/
structure Chart where
  mapZoom : Bool
  mapNavButtons : Option (List Unit)
  resetZoomButton : Bool
  drillUpButton : Bool
deriving DecidableEq, Repr

/-- `chartHasMapZoom (chart)`: the truthiness of
`chart.mapZoom && chart.mapNavButtons && chart.mapNavButtons.length`. -/
def chartHasMapZoom (chart : Chart) : Bool :=
  chart.mapZoom &&
    match chart.mapNavButtons with
    | none => false
    | some btns => decide (btns.length ≠ 0)

/-- The `validate` callback of `getMapZoomNavigation`:
`return chartHasMapZoom(chart)`. -/
def mapZoomValidate (chart : Chart) : Bool :=
  chartHasMapZoom chart

/-- C4: the map-zoom handler's `validate` returns true if and only if the
chart currently has an active map zoom and at least one map-navigation
button; in every other chart state it returns false. -/
theorem mapZoomValidate_iff (c : Chart) :
    mapZoomValidate c = true ↔
      c.mapZoom = true ∧
        ∃ btns, c.mapNavButtons = some btns ∧ 0 < btns.length := by
  rcases c with ⟨mz, mnb, rz, du⟩
  cases mz <;> cases mnb <;>
    simp [mapZoomValidate, chartHasMapZoom, Nat.pos_iff_ne_zero]

/-- The response codes a keyboard navigation handler action can return
(`keyboardNavigationHandler.response.success / prev / next`). -/
inductive Response where
  | success
  | prev
  | next
deriving DecidableEq, Repr

/-- The observable effects of one call to `ZoomComponent.onMapKbdTab`:
which button got `setState(0)` first, whether `chart.mapZoom()` was
invoked, the final `focusedMapNavButtonIx`, which button (if any) got
focused via `setFocusToElement` and selected via `setState(2)`, and the
returned response code. -/
structure TabEffects where
  deselectedIx : ℤ
  mapZoomCalled : Bool
  focusedMapNavButtonIx : ℤ
  focusSetIx : Option ℤ
  selectedIx : Option ℤ
  response : Response
deriving DecidableEq, Repr

/-- `ZoomComponent.onMapKbdTab (keyboardNavigationHandler, event)`.
`focusedMapNavButtonIx` is the component's focused-button index before
the call, `shiftKey` the event's shift-key flag.  The JS truthiness test
`!this.focusedMapNavButtonIx` is modelled as `= 0`. -/
def onMapKbdTab (focusedMapNavButtonIx : ℤ) (shiftKey : Bool) : TabEffects :=
  let isBackwards := shiftKey
  let isMoveOutOfRange :=
    (isBackwards && decide (focusedMapNavButtonIx = 0)) ||
    (!isBackwards && decide (focusedMapNavButtonIx ≠ 0))
  if isMoveOutOfRange then
    { deselectedIx := focusedMapNavButtonIx
      mapZoomCalled := true
      focusedMapNavButtonIx := focusedMapNavButtonIx
      focusSetIx := none
      selectedIx := none
      response := if isBackwards then Response.prev else Response.next }
  else
    let newIx := focusedMapNavButtonIx + if isBackwards then -1 else 1
    { deselectedIx := focusedMapNavButtonIx
      mapZoomCalled := false
      focusedMapNavButtonIx := newIx
      focusSetIx := some newIx
      selectedIx := some newIx
      response := Response.success }

/-- C3: on a tab press the currently focused map-nav button is first
deselected; on shift+tab at index 0 or plain tab at index 1 the map zoom
is reset, the response is `prev`/`next` and no button is left selected;
otherwise the index moves by `-1`/`+1`, the new button is focused and
selected, and the response is `success`. -/
theorem onMapKbdTab_spec (ix : ℤ) (shift : Bool) (h : ix = 0 ∨ ix = 1) :
    (onMapKbdTab ix shift).deselectedIx = ix ∧
    ((shift = true ∧ ix = 0) ∨ (shift = false ∧ ix = 1) →
      (onMapKbdTab ix shift).mapZoomCalled = true ∧
      (onMapKbdTab ix shift).selectedIx = none ∧
      (onMapKbdTab ix shift).focusSetIx = none ∧
      (onMapKbdTab ix shift).response =
        (if shift then Response.prev else Response.next)) ∧
    (¬((shift = true ∧ ix = 0) ∨ (shift = false ∧ ix = 1)) →
      (onMapKbdTab ix shift).mapZoomCalled = false ∧
      (onMapKbdTab ix shift).focusedMapNavButtonIx =
        ix + (if shift then -1 else 1) ∧
      (onMapKbdTab ix shift).focusSetIx =
        some (ix + (if shift then -1 else 1)) ∧
      (onMapKbdTab ix shift).selectedIx =
        some (ix + (if shift then -1 else 1)) ∧
      (onMapKbdTab ix shift).response = Response.success) := by
  rcases h with rfl | rfl <;> cases shift <;> decide

/-- Witness for C3: the spec's tab-exit example — focused at index 0,
shift+tab pressed: button 0 deselected, map zoom reset, no button left
selected, response `prev`. -/
theorem onMapKbdTab_spec_witness :
    (onMapKbdTab 0 true).deselectedIx = 0 ∧
    (onMapKbdTab 0 true).mapZoomCalled = true ∧
    (onMapKbdTab 0 true).selectedIx = none ∧
    (onMapKbdTab 0 true).response = Response.prev := by
  have h := onMapKbdTab_spec 0 true (Or.inl rfl)
  have h2 := h.2.1 (Or.inl ⟨rfl, rfl⟩)
  exact ⟨h.1, h2.1, h2.2.1, h2.2.2.2⟩

/-- The key identities the map-zoom handler distinguishes (from
`this.keyCodes`). -/
inductive Key where
  | up
  | down
  | left
  | right
  | tab
  | space
  | enter
deriving DecidableEq, Repr

/-- Which axis array of the chart an arrow press pans. -/
inductive AxisKind where
  | xAxis
  | yAxis
deriving DecidableEq, Repr

/-- The observable effects of one call to `ZoomComponent.onMapKbdArrow`:
which axis gets panned (`this.chart[panAxis][0]`), the direction and the
granularity argument passed to `panStep` (`none` = omitted), and the
returned response code. -/
structure ArrowEffects where
  panAxis : AxisKind
  axisIndex : ℕ
  stepDirection : ℚ
  granularity : Option ℚ
  response : Response
deriving DecidableEq, Repr

/-- `ZoomComponent.onMapKbdArrow (keyboardNavigationHandler, keyCode)`:
up/down select `yAxis`, otherwise `xAxis`; left/up give direction `-1`,
otherwise `1`; the first axis of that kind is panned with the granularity
argument omitted; the response is `success`. -/
def onMapKbdArrow (keyCode : Key) : ArrowEffects :=
  let panAxis :=
    if keyCode = Key.up ∨ keyCode = Key.down then AxisKind.yAxis
    else AxisKind.xAxis
  let stepDirection : ℚ :=
    if keyCode = Key.left ∨ keyCode = Key.up then -1 else 1
  { panAxis := panAxis
    axisIndex := 0
    stepDirection := stepDirection
    granularity := none
    response := Response.success }

/-- C7: for every arrow key, up/down pan the first y-axis and left/right
the first x-axis; up/left use direction `-1`, down/right `+1`; the pan
is delegated to `panStep` with the granularity omitted (so the default
`3` applies); the response is always `success`. -/
theorem onMapKbdArrow_spec (k : Key)
    (h : k = Key.up ∨ k = Key.down ∨ k = Key.left ∨ k = Key.right) :
    ((k = Key.up ∨ k = Key.down) → (onMapKbdArrow k).panAxis = AxisKind.yAxis) ∧
    ((k = Key.left ∨ k = Key.right) → (onMapKbdArrow k).panAxis = AxisKind.xAxis) ∧
    ((k = Key.up ∨ k = Key.left) → (onMapKbdArrow k).stepDirection = -1) ∧
    ((k = Key.down ∨ k = Key.right) → (onMapKbdArrow k).stepDirection = 1) ∧
    (onMapKbdArrow k).axisIndex = 0 ∧
    (onMapKbdArrow k).granularity = none ∧
    panGran (onMapKbdArrow k).granularity = 3 ∧
    (onMapKbdArrow k).response = Response.success := by
  rcases h with rfl | rfl | rfl | rfl <;>
    refine ⟨?_, ?_, ?_, ?_, rfl, rfl, rfl, rfl⟩ <;> intro hk <;>
      first
        | rfl
        | (exfalso; rcases hk with hk | hk <;> exact Key.noConfusion hk)

/-- Witness for C7: the up-arrow key pans the first y-axis with direction
`-1` and an omitted granularity, and returns `success`. -/
theorem onMapKbdArrow_spec_witness :
    (onMapKbdArrow Key.up).panAxis = AxisKind.yAxis ∧
    (onMapKbdArrow Key.up).stepDirection = -1 ∧
    (onMapKbdArrow Key.up).granularity = none ∧
    (onMapKbdArrow Key.up).response = Response.success := by
  have h := onMapKbdArrow_spec Key.up (Or.inl rfl)
  exact ⟨h.1 (Or.inl rfl), h.2.2.1 (Or.inl rfl), h.2.2.2.2.2.1,
    h.2.2.2.2.2.2.2⟩

/-- The two logical proxy roles the component maintains
(`resetZoomProxyGroup`/`resetZoomProxyButton` and
`drillUpProxyGroup`/`drillUpProxyButton`). -/
inductive ProxyRole where
  | resetZoom
  | drillUp
deriving DecidableEq, Repr

/-- One observable DOM-side operation of the proxy-overlay code:
`removeElement` on a role's group, `addProxyGroup` for a role, or
`createProxyButton` inside a role's group. -/
inductive ProxyOp where
  | removeGroup : ProxyRole → ProxyOp
  | createGroup : ProxyRole → ProxyOp
  | createButton : ProxyRole → ProxyOp
deriving DecidableEq, Repr

/-- `ZoomComponent.recreateProxyButtonAndGroup`: removes the role's old
group, adds a fresh proxy group and creates one proxy button inside it. -/
def recreateProxyButtonAndGroup (role : ProxyRole) : List ProxyOp :=
  [ProxyOp.removeGroup role, ProxyOp.createGroup role, ProxyOp.createButton role]

/-- `ZoomComponent.updateProxyOverlays`: the sequence of proxy operations
one call performs on a chart in the given state — always start with a
clean slate (remove the drill-up group, then the reset-zoom group), then
recreate the reset-zoom proxy when `chart.resetZoomButton` is truthy and
the drill-up proxy when `chart.drillUpButton` is truthy. -/
def updateProxyOverlays (chart : Chart) : List ProxyOp :=
  [ProxyOp.removeGroup ProxyRole.drillUp, ProxyOp.removeGroup ProxyRole.resetZoom] ++
  (if chart.resetZoomButton then recreateProxyButtonAndGroup ProxyRole.resetZoom
   else []) ++
  (if chart.drillUpButton then recreateProxyButtonAndGroup ProxyRole.drillUp
   else [])

/-- C5: every call to `updateProxyOverlays` first tears down both the
drill-up and reset-zoom proxy groups unconditionally, then recreates the
reset-zoom proxy group (and its button) if and only if the chart has a
reset-zoom control, and the drill-up proxy group (and its button) if and
only if the chart has a drill-up control. -/
theorem updateProxyOverlays_spec (c : Chart) :
    (updateProxyOverlays c).take 2 =
      [ProxyOp.removeGroup ProxyRole.drillUp,
       ProxyOp.removeGroup ProxyRole.resetZoom] ∧
    (ProxyOp.createGroup ProxyRole.resetZoom ∈ updateProxyOverlays c ↔
      c.resetZoomButton = true) ∧
    (ProxyOp.createButton ProxyRole.resetZoom ∈ updateProxyOverlays c ↔
      c.resetZoomButton = true) ∧
    (ProxyOp.createGroup ProxyRole.drillUp ∈ updateProxyOverlays c ↔
      c.drillUpButton = true) ∧
    (ProxyOp.createButton ProxyRole.drillUp ∈ updateProxyOverlays c ↔
      c.drillUpButton = true) := by
  rcases c with ⟨mz, mnb, rz, du⟩
  cases rz <;> cases du <;>
    simp [updateProxyOverlays, recreateProxyButtonAndGroup]

/-- `ZoomComponent.onChartRender`: calls `this.updateProxyOverlays()`. -/
def onChartRender (chart : Chart) : List ProxyOp :=
  updateProxyOverlays chart

/-- `ZoomComponent.init`: for each event type in the listed array, calls
`addEvent(chart, eventType, ...)` with a handler that runs
`component.updateProxyOverlays()`.  Modelled as the list of
(event type, subscribed handler) pairs the call registers, in order. -/
def init : List (String × (Chart → List ProxyOp)) :=
  ["afterShowResetZoom", "afterDrilldown", "drillupall"].map
    (fun eventType => (eventType, fun chart => updateProxyOverlays chart))

/-- C9 counterexample: `init` does not subscribe to any chart redraw (or
render) event — the subscribed event types are exactly
`afterShowResetZoom`, `afterDrilldown` and `drillupall`. -/
theorem init_no_redraw_subscription :
    "redraw" ∉ init.map Prod.fst ∧ "render" ∉ init.map Prod.fst ∧
    init.map Prod.fst = ["afterShowResetZoom", "afterDrilldown", "drillupall"] := by
  refine ⟨?_, ?_, rfl⟩ <;> decide

/-- C9 amended: on initialization the component subscribes to exactly the
`afterShowResetZoom`, `afterDrilldown` and `drillupall` chart events, each
triggering a full proxy-overlay rebuild (`updateProxyOverlays`); rebuilds
on render happen through the separately invoked `onChartRender` hook,
which also runs `updateProxyOverlays`. -/
theorem init_event_subscriptions :
    init = [("afterShowResetZoom", updateProxyOverlays),
            ("afterDrilldown", updateProxyOverlays),
            ("drillupall", updateProxyOverlays)] ∧
    onChartRender = updateProxyOverlays :=
  ⟨rfl, rfl⟩

end Highcharts
